import Mathlib

/-!
Verification development for the agentic-cicd workflow orchestration engine.

The definitions below are shallow embeddings of the Python sources:
  - src/lambda/orchestrator.py  (workflow controller, agent retry wrapper,
    artifact extraction, completeness heuristics, GitHub publish sequence,
    task state store wrappers, generation-validation loops)
  - src/lambda/template_validator.py  (validator adapter)
  - src/lambda/github_api.py  (publishing API handler, create_file branch)

Python strings are modelled as Lean `String` / `List Char`; calls to external
services (Bedrock agents, invoked Lambdas, DynamoDB, the PyYAML parser) are
modelled as explicit oracle parameters supplying the remote results, exactly
as the call sites consume them.
-/

namespace AgenticCicd

/-! ## String utilities (Python `str` helpers on `List Char`) -/

/-- ASCII whitespace, the character class stripped by `str.strip()` and
matched by the regex class `\s` on the inputs this system handles. -/
def isPySpace (c : Char) : Bool :=
  c = ' ' || c = '\t' || c = '\n' || c = '\r' || c = '\x0b' || c = '\x0c'

/-- Python `str.lstrip()` on a char list. -/
def pyLstrip (s : List Char) : List Char := s.dropWhile isPySpace

/-- Python `str.strip()` on a char list. -/
def pyStrip (s : List Char) : List Char :=
  ((s.dropWhile isPySpace).reverse.dropWhile isPySpace).reverse

/-- Python `str.strip()` on a `String`. -/
def pyStripS (s : String) : String := ⟨pyStrip s.data⟩

/-- `startsWithStr needle hay`: `hay` begins with `needle`
(Python `str.startswith`). -/
def startsWithStr : List Char → List Char → Bool
  | [], _ => true
  | _ :: _, [] => false
  | n :: ns, h :: hs => n = h && startsWithStr ns hs

/-- `endsWithStr needle hay`: `hay` ends with `needle` (Python `str.endswith`). -/
def endsWithStr (needle hay : List Char) : Bool :=
  startsWithStr needle.reverse hay.reverse

/-- Python substring test `needle in hay`. -/
def occursIn (needle : List Char) : List Char → Bool
  | [] => needle.isEmpty
  | c :: rest => startsWithStr needle (c :: rest) || occursIn needle rest

/-- Python `str.count(ch)` for a single character. -/
def countChar (ch : Char) (s : List Char) : Nat :=
  (s.filter (· = ch)).length

/-- ASCII lowercasing of one character (Python `str.lower()` on the ASCII
inputs this system handles). -/
def pyLowerChar (c : Char) : Char :=
  if c.toNat ≥ 65 && c.toNat ≤ 90 then Char.ofNat (c.toNat + 32) else c

/-- Python `str.lower()` on a char list. -/
def lowerL (s : List Char) : List Char := s.map pyLowerChar

/-- Python slice `s[-n:]`: the last `n` characters (all of `s` if shorter). -/
def takeLast (n : Nat) (s : List Char) : List Char := s.drop (s.length - n)

/-- Helper for `pySplitlines`: split at every newline, keeping a possibly
empty final piece. -/
def splitNlAux : List Char → List Char → List (List Char)
  | [], cur => [cur.reverse]
  | c :: rest, cur =>
    if c = '\n' then cur.reverse :: splitNlAux rest [] else splitNlAux rest (c :: cur)

/-- Python `str.splitlines()` (newline-only inputs): `""` gives `[]`, and a
trailing newline does not produce a trailing empty line. -/
def pySplitlines (s : List Char) : List (List Char) :=
  match s with
  | [] => []
  | _ =>
    if s.getLast? = some '\n' then (splitNlAux s []).dropLast else splitNlAux s []

/-- Python `"\n".join(lines)` on char-list lines. -/
def joinNl : List (List Char) → List Char
  | [] => []
  | [l] => l
  | l :: rest => l ++ '\n' :: joinNl rest

/-- Python `hay.rfind(needle)`: index of the last occurrence, if any. -/
def rfindAux (needle : List Char) : List Char → Nat → Option Nat → Option Nat
  | [], _, best => best
  | c :: rest, pos, best =>
    rfindAux needle rest (pos + 1)
      (if startsWithStr needle (c :: rest) then some pos else best)

/-- Python `hay.rfind(needle)` for a nonempty needle, as an `Option`. -/
def rfindIdx (needle hay : List Char) : Option Nat := rfindAux needle hay 0 none

/-! ## Artifact Extractor — `extract_yaml_content` (orchestrator.py 276-305)

The source searches `re.search(r"```(?:yaml)?\s*\n(.*?)(?:\n```|$)", text,
re.DOTALL | re.IGNORECASE)`.  The pattern is fixed, so the search is embedded
directly: try to match at each start position from the left; at a given
position the match is deterministic (consume the fence, the optional
case-insensitive `yaml` tag, greedily the whitespace run up to its last
newline, then the shortest content ending at `\n`-fence, at the position
before a string-final newline, or at end of input). -/

/-- The three-backtick fence delimiter. -/
def fence3 : List Char := ['`', '`', '`']

/-- A newline followed by the closing fence. -/
def nlFence : List Char := '\n' :: fence3

/-- Consume the optional case-insensitive `yaml` tag of the regex
`(?:yaml)?` (backtracking never helps: if the tag is present and taking it
fails, not taking it fails too, since `y` is not whitespace). -/
def dropYamlTag : List Char → List Char
  | y :: a :: m :: l :: rest =>
    if (y = 'y' || y = 'Y') && (a = 'a' || a = 'A') &&
       (m = 'm' || m = 'M') && (l = 'l' || l = 'L') then rest
    else y :: a :: m :: l :: rest
  | s => s

/-- The part of a whitespace run after its last newline. -/
def afterLastNl (ws : List Char) : List Char :=
  (ws.reverse.takeWhile (· ≠ '\n')).reverse

/-- Match `\s*\n` greedily with backtracking: succeed iff the leading
whitespace run contains a newline, consuming through its last newline. -/
def consumeWsNl (s : List Char) : Option (List Char) :=
  let ws := s.takeWhile isPySpace
  if ws.contains '\n' then some (afterLastNl ws ++ s.dropWhile isPySpace)
  else none

/-- Match `(.*?)(?:\n```|$)` (DOTALL, no MULTILINE): the shortest content up
to a `\n`-fence, up to the position before a string-final newline, or to the
end of input. -/
def takeUntilCloseFence : List Char → List Char
  | [] => []
  | c :: rest =>
    if startsWithStr nlFence (c :: rest) then []
    else if c = '\n' && rest = [] then []
    else c :: takeUntilCloseFence rest

/-- Try the full fenced-block pattern at the start of `s`, returning capture
group 1 on success. -/
def matchFenceAt (s : List Char) : Option (List Char) :=
  if startsWithStr fence3 s then
    match consumeWsNl (dropYamlTag (s.drop 3)) with
    | some s3 => some (takeUntilCloseFence s3)
    | none => none
  else none

/-- `re.search`: leftmost successful match of the fenced-block pattern. -/
def searchFence : List Char → Option (List Char)
  | [] => none
  | c :: rest =>
    match matchFenceAt (c :: rest) with
    | some g => some g
    | none => searchFence rest

/-- Structural YAML line starters used by the fallback line scan
(orchestrator.py line 300). -/
def yamlStarters : List (List Char) :=
  ["name:".data, "on:".data, "jobs:".data, "workflow_dispatch:".data]

/-- The fallback line scan: start capturing at the first line whose stripped
form begins with a structural starter, then capture to end of text. -/
def fallbackScan : List (List Char) → Bool → List (List Char)
  | [], _ => []
  | l :: rest, capturing =>
    let stripped := pyStrip l
    let cap := capturing || yamlStarters.any (fun p => startsWithStr p stripped)
    if cap then l :: fallbackScan rest cap else fallbackScan rest cap

/-- `extract_yaml_content` (orchestrator.py 276-305).  The source also prints
a warning when no closing fence is found nearby; logging has no effect on the
returned value and is omitted. -/
def extract_yaml_content (text : String) : String :=
  if text = "" then ""
  else
    match searchFence text.data with
    | some g => ⟨pyStrip g⟩
    | none => ⟨pyStrip (joinNl (fallbackScan (pySplitlines text.data) false))⟩

/-! ## Completeness heuristics — `is_yaml_complete` (orchestrator.py 387-483)

The source is a chain of reject checks; each block is embedded as a named
boolean returning `true` when the block does NOT reject.  Two blocks of the
source (the `run:` mid-block inspection at lines 449-468 and the
warning prints) only log and never return, so they do not appear here. -/

/-- The unterminated variable-interpolation markers checked at line 400:
`$` followed by two opening braces, optionally with a known continuation. -/
def varOpen : List Char := ['$', '{', '{']

/-- orchestrator.py 394-406: the stripped last line, when it neither is empty
nor ends in a YAML continuation character, must not end in an unterminated
interpolation marker and must have balanced quote counts. -/
def lastLineLooksComplete (s : List Char) : Bool :=
  match (pySplitlines s).getLast? with
  | none => true
  | some ll =>
    let last_line := pyStrip ll
    if last_line ≠ [] &&
       !(endsWithStr [':'] last_line || endsWithStr ['-'] last_line ||
         endsWithStr [']'] last_line || endsWithStr ['}'] last_line ||
         endsWithStr ['>'] last_line || endsWithStr ['|'] last_line) then
      if endsWithStr varOpen last_line ||
         endsWithStr (varOpen ++ " needs".data) last_line ||
         endsWithStr (varOpen ++ " vars".data) last_line ||
         endsWithStr (varOpen ++ " secrets".data) last_line then false
      else if countChar '"' last_line % 2 ≠ 0 || countChar '\'' last_line % 2 ≠ 0 then
        false
      else true
    else true

/-- orchestrator.py 409-414: the last 50 characters must not contain more
opening than closing braces. -/
def bracesOk (s : List Char) : Bool :=
  countChar '{' (takeLast 50 s) ≤ countChar '}' (takeLast 50 s)

/-- The terminal (deploy) section: the text from the last occurrence of
`deploy:` (searched case-insensitively) to the end, as sliced at
orchestrator.py lines 419 and 476. -/
def deploy_section (s : List Char) : List Char :=
  match rfindIdx "deploy:".data (lowerL s) with
  | some idx => s.drop idx
  | none => []

/-- The terminal-action keyword allow-list (orchestrator.py 422-430). -/
def deployKeywords : List String :=
  ["aws ecs update-service", "aws ecs deploy", "ecs update-service",
   "update-service", "force-new-deployment", "deploy", "update service"]

/-- The guard-clause phrases checked against the last significant line of the
deploy section (orchestrator.py 442). -/
def guardPhrases : List (List Char) :=
  ["exit 1".data, "echo \"error".data, "if [[ -z".data]

/-- orchestrator.py 418-447: when a deploy section exists and carries no
allow-listed keyword, a section whose tail is only guard logic is rejected
unless it mentions `ecs` and `update`.  (Because `deploy` itself is on the
allow-list and the section always contains `deploy:`, the inner rejection is
unreachable.) -/
def deploySectionOk (s : List Char) : Bool :=
  let low := lowerL s
  if occursIn "deploy:".data low then
    let dsec := deploy_section s
    let dlow := lowerL dsec
    let has_deployment_action := deployKeywords.any (fun kw => occursIn kw.data dlow)
    if !has_deployment_action then
      let last200 := lowerL (takeLast 200 dsec)
      if occursIn "exit 1".data last200 || occursIn "error:".data last200 then
        let last_lines := ((pySplitlines dsec).map pyStrip).filter
          (fun l => l ≠ [] && !startsWithStr ['#'] l)
        match last_lines.getLast? with
        | none => true
        | some lm =>
          let last_meaningful := lowerL lm
          if guardPhrases.any (fun p => occursIn p last_meaningful) then
            if !occursIn "ecs".data dlow || !occursIn "update".data dlow then false
            else true
          else true
      else true
    else true
  else true

/-- orchestrator.py 470-481: a workflow shorter than 150 lines that has a
deploy (or build) job must have at least 10 significant deploy-section lines. -/
def minLengthOk (s : List Char) : Bool :=
  let lines := pySplitlines s
  let low := lowerL s
  if lines.length < 150 && (occursIn "deploy:".data low || occursIn "build:".data low) then
    if occursIn "deploy:".data low then
      let deploy_content := deploy_section s
      let deploy_lines := (pySplitlines deploy_content).filter
        (fun l => pyStrip l ≠ [] && !startsWithStr ['#'] (pyStrip l))
      decide (10 ≤ deploy_lines.length)
    else true
  else true

/-- `is_yaml_complete` (orchestrator.py 387-483): `false` on empty input,
otherwise the conjunction of the reject checks, in source order. -/
def is_yaml_complete (yaml_content : String) : Bool :=
  let s := yaml_content.data
  if s.isEmpty then false
  else if !lastLineLooksComplete s then false
  else if !bracesOk s then false
  else if !deploySectionOk s then false
  else if !minLengthOk s then false
  else true

/-! ## Remote Call Client / Retry Controller — `invoke_agent`
(orchestrator.py 125-257)

The Bedrock stream consumption is modelled by an oracle `outcomes` giving,
for each attempt index, either the fully-consumed stream (concatenated
completion plus the captured action-group invocation records) or the raised
exception (its message and type name).  The run also produces a trace with
one record per call actually made: the session identifier used and the
backoff delay slept before it. -/

/-- One captured action-group invocation (orchestrator.py 176-184). -/
structure AgentInvocation where
  api_path : String
  http_method : String
  action_group : String
deriving DecidableEq, Repr

/-- What one `bedrock_agent_runtime.invoke_agent` call produces: the consumed
stream, or a raised exception. -/
inductive AgentCallOutcome where
  | success (completion : String) (invocations : List AgentInvocation)
  | exn (errorMsg : String) (errorType : String)
deriving DecidableEq, Repr

/-- The dict returned by `invoke_agent`. -/
inductive InvokeResult where
  | ok (completion : String) (invocations : List AgentInvocation)
  | err (message : String) (errorType : String)
deriving DecidableEq, Repr

/-- `result.get("status")` of an `invoke_agent` return value. -/
def InvokeResult.resStatus : InvokeResult → String
  | .ok _ _ => "success"
  | .err _ _ => "error"

/-- `result.get("completion", "")`. -/
def InvokeResult.completionOf : InvokeResult → String
  | .ok c _ => c
  | .err _ _ => ""

/-- Retryable-error classification (orchestrator.py 226-231): substring tests
on the exception message and on the exception type name. -/
def isRetryable (errorMsg errorType : String) : Bool :=
  occursIn "dependencyFailedException".data errorMsg.data ||
  occursIn "ThrottlingException".data errorType.data ||
  occursIn "ServiceException".data errorType.data ||
  occursIn "InternalServerException".data errorType.data

/-- One entry of the call trace: the session id used for the call and the
`time.sleep(2 ** attempt)` delay taken before it (0 for the first call). -/
structure AttemptRec where
  sessionUsed : String
  delayBefore : Nat
deriving DecidableEq, Repr

/-- The retry loop body of `invoke_agent` (orchestrator.py 129-251).  `fuel`
counts the remaining iterations of `for attempt in range(max_retries + 1)`;
the fuel-exhausted case is the dead fall-through return at lines 253-257. -/
def invoke_agent_aux (outcomes : Nat → AgentCallOutcome) (maxRetries : Nat) :
    Nat → Nat → String → InvokeResult × List AttemptRec
  | 0, _, _ => (.err "Max retries exceeded" "MaxRetriesExceeded", [])
  | fuel + 1, attempt, sessionId =>
    let sid := if attempt > 0 then sessionId ++ "-retry-" ++ toString attempt
               else sessionId
    let delay := if attempt > 0 then 2 ^ attempt else 0
    match outcomes attempt with
    | .success c invs => (.ok c invs, [⟨sid, delay⟩])
    | .exn msg ty =>
      if isRetryable msg ty && attempt < maxRetries then
        let r := invoke_agent_aux outcomes maxRetries fuel (attempt + 1) sid
        (r.1, ⟨sid, delay⟩ :: r.2)
      else (.err msg ty, [⟨sid, delay⟩])

/-- `invoke_agent(agent_id, agent_alias_id, session_id, input_text,
max_retries=2)`: agent/alias/input only address the remote call and are
absorbed into `outcomes`. -/
def invoke_agent (outcomes : Nat → AgentCallOutcome) (sessionId : String)
    (maxRetries : Nat := 2) : InvokeResult × List AttemptRec :=
  invoke_agent_aux outcomes maxRetries (maxRetries + 1) 0 sessionId

/-- The session id used at attempt `k`: the base id with one
`-retry-<attempt>` suffix appended per retry so far. -/
def sessionAt (base : String) : Nat → String
  | 0 => base
  | k + 1 => sessionAt base k ++ "-retry-" ++ toString (k + 1)

/-- The backoff delay slept before attempt `k`. -/
def delayAt (k : Nat) : Nat := if k = 0 then 0 else 2 ^ k

/-- The call trace an `invoke_agent` run of `n` calls must produce. -/
def expectedTrace (base : String) (n : Nat) : List AttemptRec :=
  (List.range n).map (fun k => ⟨sessionAt base k, delayAt k⟩)

/-! ## Deterministic Fallback — `execute_github_workflow`
(orchestrator.py 509-633)

The three GitHub API Lambda round-trips are modelled by the normalized
responses the call sites consume (`status` and optional `message`); the
outcome records which sub-operations were invoked, in order. -/

/-- A normalized GitHub API Lambda response as consumed by
`execute_github_workflow` (after `_normalize_github_lambda_response`). -/
structure GhResp where
  status : String
  message : Option String := none
deriving DecidableEq, Repr

/-- `resp.get("message", default)`. -/
def GhResp.msgOr (r : GhResp) (default : String) : String :=
  r.message.getD default

/-- The dict returned by `execute_github_workflow`, plus the ordered list of
GitHub sub-operations actually invoked. -/
structure GhOutcome where
  success : Bool
  error : Option String := none
  warnings : List String := []
  calls : List String := []
deriving DecidableEq, Repr

/-- `execute_github_workflow` (orchestrator.py 509-633).  `githubFnSet`
models whether `GITHUB_API_FUNCTION_NAME` is configured; `branchResp`,
`fileResp`, `prResp` are the normalized responses of the three sub-calls.
Branch/owner/title/body strings only flow into the remote payloads and are
absorbed into the responses. -/
def execute_github_workflow (githubFnSet : Bool)
    (branchResp fileResp prResp : GhResp)
    (yaml_content_ci yaml_content_cd : String) : GhOutcome :=
  if !githubFnSet then
    { success := false,
      error := some "GITHUB_API_FUNCTION_NAME is not set in the environment" }
  else
    let calls1 := ["create_branch"]
    if branchResp.status ≠ "success" then
      { success := false, error := some (branchResp.msgOr "Branch creation failed"),
        calls := calls1 }
    else
      let files :=
        (if yaml_content_ci ≠ "" then [".github/workflows/ci.yml"] else []) ++
        (if yaml_content_cd ≠ "" then [".github/workflows/cd.yml"] else [])
      if files.isEmpty then
        { success := false,
          error := some "No workflow content provided (both CI and CD are empty)",
          calls := calls1 }
      else
        let calls2 := calls1 ++ ["create_file"]
        if fileResp.status ≠ "success" then
          { success := false,
            error := some (fileResp.msgOr "Workflow file creation failed"),
            calls := calls2 }
        else
          let calls3 := calls2 ++ ["create_pr"]
          if prResp.status ≠ "success" then
            let message := lowerL (prResp.msgOr "").data
            if occursIn "already exists".data message then
              { success := true,
                warnings := ["Pull request already exists for branch; reused existing PR"],
                calls := calls3 }
            else
              { success := false, error := some (prResp.msgOr "PR creation failed"),
                calls := calls3 }
          else { success := true, calls := calls3 }

/-! ## Validator Adapter — template_validator.py

`validate_yaml_syntax` (lines 56-107) delegates YAML parsing to PyYAML; the
parse outcome and the substring features of the extracted text are supplied
as explicit parameters, and the error/warning assembly is embedded verbatim.
The combination logic of `lambda_handler` (lines 286-312, direct-invocation
path with `yaml_content` present) is embedded as `validatorHandler`. -/

/-- One step of a parsed job: whether `uses` / `run` keys are present. -/
structure StepCfg where
  hasUses : Bool
  hasRun : Bool
deriving DecidableEq, Repr

/-- One parsed job: whether `runs-on` is present, and its steps if a `steps`
key is present. -/
structure JobCfg where
  hasRunsOn : Bool
  steps : Option (List StepCfg)
deriving DecidableEq, Repr

/-- Outcome of `yaml.load` on the extracted text: a raised `YAMLError`, a
falsy document, or a mapping with the inspected keys. -/
inductive ParsedYaml where
  | parseError (msg : String)
  | emptyDoc
  | doc (hasName hasOn : Bool) (jobs : Option (List (String × JobCfg)))
deriving DecidableEq, Repr

/-- The dict returned by `validate_yaml_syntax_fn`. -/
structure SyntaxVerdict where
  valid : Bool
  errors : List String
  warnings : List String
deriving DecidableEq, Repr

/-- Errors contributed by one job entry (template_validator.py 87-99). -/
def jobErrors (jobName : String) (cfg : JobCfg) : List String :=
  (if !cfg.hasRunsOn then ["Job \"" ++ jobName ++ "\" missing \"runs-on\""] else []) ++
  (match cfg.steps with
   | none => ["Job \"" ++ jobName ++ "\" missing \"steps\""]
   | some steps =>
     steps.enum.foldr
       (fun si acc =>
         (if !si.2.hasUses && !si.2.hasRun then
            ["Job \"" ++ jobName ++ "\" step " ++ toString (si.1 + 1) ++
             " missing \"uses\" or \"run\""]
          else []) ++ acc) [])

/-- `validate_yaml_syntax` of template_validator.py 56-107, embedded here.  `extractedOk`
models `extract_yaml_content(yaml_content)` being truthy; `parse` is the
PyYAML outcome on the validated text; `hasPassword`/`hasSecretWord`/
`hasSecretsDot`/`hasDollarBrace` are the four substring tests of lines
103-104 on the lowercased validated text. -/
def validate_yaml_syntax_fn (extractedOk : Bool) (parse : ParsedYaml)
    (hasPassword hasSecretWord hasSecretsDot hasDollarBrace : Bool) : SyntaxVerdict :=
  let warnings0 :=
    if extractedOk then []
    else ["Could not extract YAML from content, validating entire content"]
  match parse with
  | .parseError m =>
    { valid := false, errors := ["YAML syntax error: " ++ m], warnings := warnings0 }
  | .emptyDoc =>
    { valid := false, errors := ["YAML is empty or invalid"], warnings := warnings0 }
  | .doc hasName hasOn jobs =>
    let warnings1 := warnings0 ++ (if !hasName then ["Workflow name is missing"] else [])
    let errors :=
      (if !hasOn then ["Workflow trigger (\"on\") is missing"] else []) ++
      (match jobs with
       | none => ["Workflow jobs section is missing"]
       | some js => js.foldr (fun j acc => jobErrors j.1 j.2 ++ acc) [])
    let warnings2 := warnings1 ++
      (if (hasPassword || hasSecretWord) && (!hasSecretsDot && !hasDollarBrace) then
         ["Potential hardcoded secrets detected"]
       else [])
    { valid := errors.isEmpty, errors := errors, warnings := warnings2 }

/-- The result dict of the validator `lambda_handler` (the fields the claims
inspect). -/
structure ValidatorResult where
  status : String
  valid : Bool
  summaryErrors : List String
  summaryWarnings : List String
deriving DecidableEq, Repr

/-- The verdict-combination logic of the validator `lambda_handler`
(template_validator.py 286-312): syntax errors are the only errors; syntax
warnings and permissions warnings combine; validity depends on the
validation level. -/
def validatorHandler (syntaxResult : SyntaxVerdict)
    (permissionsWarnings : List String) (validation_level : String) : ValidatorResult :=
  let all_errors := syntaxResult.errors
  let all_warnings := syntaxResult.warnings ++ permissionsWarnings
  let is_valid :=
    if validation_level = "strict" then all_errors.isEmpty && all_warnings.isEmpty
    else if validation_level = "normal" then all_errors.isEmpty
    else true
  { status := if is_valid then "success" else "validation_failed",
    valid := is_valid,
    summaryErrors := all_errors,
    summaryWarnings := all_warnings }

/-! ## Publishing API — github_api.py `lambda_handler`, `create_file` branch
(lines 351-414)

`create_or_update_file`'s HTTP round-trips are modelled by an oracle from
file path to write success.  The handler's per-file loop and overall result
assembly are embedded verbatim. -/

/-- One entry of the `files` array of a `create_file` request. -/
structure FileSpec where
  path : Option String
  content : Option String
deriving DecidableEq, Repr

/-- One entry of the per-file `results` list. -/
structure FileResult where
  path : Option String
  status : String
  message : Option String := none
deriving DecidableEq, Repr

/-- The handler's response for the `create_file` operation. -/
structure CreateFileResult where
  status : String
  message : Option String := none
  files : List FileResult := []
deriving DecidableEq, Repr

/-- Python truthiness of an optional string (`not path`). -/
def strFalsy : Option String → Bool
  | none => true
  | some s => s = ""

/-- The per-file loop of github_api.py 375-396. -/
def createFileResults (writeOk : String → Bool) : List FileSpec → List FileResult
  | [] => []
  | f :: rest =>
    (if strFalsy f.path || f.content.isNone then
       { path := f.path, status := "error", message := some "path and content required" }
     else
       { path := f.path,
         status := if writeOk (f.path.getD "") then "success" else "error" }) ::
    createFileResults writeOk rest

/-- The `create_file` branch of the github_api `lambda_handler`
(github_api.py 351-414, direct-invocation path): an empty `files` array is a
400, otherwise the overall status is unconditionally `"success"` and only the
per-file results record individual failures. -/
def github_create_file (writeOk : String → Bool) (files : List FileSpec) :
    CreateFileResult :=
  if files.isEmpty then
    { status := "error", message := some "files array is required" }
  else
    { status := "success", files := createFileResults writeOk files }

/-! ## Task State Store — `create_task_record`, `update_task_status`
(orchestrator.py 45-61, 102-122)

DynamoDB availability is modelled by a boolean oracle; the wrappers catch
every store failure and return normally (the source logs a warning and
continues). -/

/-- The raw `table.put_item` call: fails when the store is unavailable. -/
def dynamo_put (storeAvailable : Bool) : Except String Unit :=
  if storeAvailable then .ok () else .error "Could not write to DynamoDB"

/-- The raw `table.update_item` call: fails when the store is unavailable. -/
def dynamo_update (storeAvailable : Bool) : Except String Unit :=
  if storeAvailable then .ok () else .error "Could not update DynamoDB"

/-- `create_task_record` (orchestrator.py 45-61): any store failure is caught
and only logged. -/
def create_task_record (storeAvailable : Bool) (_taskStatus : String) :
    Except String Unit :=
  match dynamo_put storeAvailable with
  | .ok _ => .ok ()
  | .error _e => .ok ()

/-- `update_task_status` (orchestrator.py 102-122): any store failure is
caught and only logged.  `errStep` is the `step` field of the result payload,
when one is attached. -/
def update_task_status (storeAvailable : Bool) (_taskStatus : String)
    (_errStep : Option String) : Except String Unit :=
  match dynamo_update storeAvailable with
  | .ok _ => .ok ()
  | .error _e => .ok ()

/-- One attempted state-store mutation: the status written and the offending
step recorded in the payload, if any. -/
structure StoreWrite where
  status : String
  errStep : Option String := none
deriving DecidableEq, Repr

/-- Perform one `update_task_status` call (whose result the source discards —
justified by `update_task_status` never failing) and append the attempt to
the audit trace. -/
def noteWrite (storeAvailable : Bool) (status : String) (errStep : Option String)
    (trace : List StoreWrite) : List StoreWrite :=
  let _r := update_task_status storeAvailable status errStep
  trace ++ [⟨status, errStep⟩]

/-! ## Generation-Validation Loop (orchestrator.py 972-1029 for CI and
1045-1107 for CD)

Both loops have identical control flow (they differ in step names, messages,
and the prompt feedback text); the shared structure is `genLoopAux`, with the
per-artifact strings in a `GenCfg`.  The Bedrock agent and the template
validator Lambda are oracles indexed by attempt number.  `fuel` counts the
remaining iterations of `for attempt in range(1, max_attempts + 1)`; the
fuel-exhausted exit models the (unreachable for `maxAttempts ≥ 1`) normal
loop fall-through with empty content. -/

/-- The fields of a template-validator Lambda reply that the loop consumes. -/
structure VReply where
  valid : Bool
  summaryErrors : List String
  syntaxErrors : List String
deriving DecidableEq, Repr

/-- Per-artifact strings of one generation loop. -/
structure GenCfg where
  stepBase : String
  failStep : String
  shortFeedback : String
  incompleteFeedback : String
deriving DecidableEq, Repr

/-- Oracles consumed by one generation loop. -/
structure GenEnv where
  agentResult : Nat → InvokeResult
  validatorSet : Bool
  validatorReply : Nat → VReply
  storeOk : Nat → Bool

/-- How one generation loop ended. -/
inductive GenExit where
  | ok (yaml : String)
  | agentFailed
  | tooShort
  | incomplete
  | invalid
  | exhausted
deriving DecidableEq, Repr

/-- Observable output of one generation loop: the exit, the appended
workflow steps, the attempted store writes, and how often the generator and
the validator were invoked. -/
structure GenOut where
  exit : GenExit
  steps : List String
  writes : List StoreWrite
  genCalls : Nat
  valCalls : Nat
deriving DecidableEq, Repr

/-- The errors list a failed validation feeds back:
`summary.errors or syntax.errors`, joined, with a per-artifact default. -/
def vErrorText (vr : VReply) (default : String) : String :=
  let errs := if vr.summaryErrors.isEmpty then vr.syntaxErrors else vr.summaryErrors
  if errs.isEmpty then default else String.intercalate "\n" errs

/-- One generation loop (orchestrator.py 976-1029 / 1049-1107).  The
`validationErrors` parameter is the feedback appended to the next attempt's
prompt (observable only through the remote call, hence carried but unused);
the CD loop additionally appends a computed missing-parts note to its
incomplete feedback, which likewise only reaches the prompt. -/
def genLoopAux (cfg : GenCfg) (env : GenEnv) (maxAttempts : Nat) :
    Nat → Nat → Option String → GenOut
  | 0, _, _ => { exit := .exhausted, steps := [], writes := [], genCalls := 0, valCalls := 0 }
  | fuel + 1, attempt, _validationErrors =>
    let stepName := cfg.stepBase ++ "_attempt_" ++ toString attempt
    let writes0 := noteWrite (env.storeOk attempt) "in_progress" none []
    match env.agentResult attempt with
    | .err _m _t =>
      if attempt = maxAttempts then
        { exit := .agentFailed, steps := [stepName],
          writes := noteWrite (env.storeOk attempt) "failed" (some cfg.failStep) writes0,
          genCalls := 1, valCalls := 0 }
      else
        let r := genLoopAux cfg env maxAttempts fuel (attempt + 1) _validationErrors
        { exit := r.exit, steps := stepName :: r.steps, writes := writes0 ++ r.writes,
          genCalls := r.genCalls + 1, valCalls := r.valCalls }
    | .ok completion _invs =>
      let yaml := extract_yaml_content completion
      if yaml = "" || (pyStrip yaml.data).length < 50 then
        if attempt = maxAttempts then
          { exit := .tooShort, steps := [stepName], writes := writes0,
            genCalls := 1, valCalls := 0 }
        else
          let r := genLoopAux cfg env maxAttempts fuel (attempt + 1) (some cfg.shortFeedback)
          { exit := r.exit, steps := stepName :: r.steps, writes := writes0 ++ r.writes,
            genCalls := r.genCalls + 1, valCalls := r.valCalls }
      else if !is_yaml_complete yaml then
        if attempt = maxAttempts then
          { exit := .incomplete, steps := [stepName], writes := writes0,
            genCalls := 1, valCalls := 0 }
        else
          let r := genLoopAux cfg env maxAttempts fuel (attempt + 1)
            (some cfg.incompleteFeedback)
          { exit := r.exit, steps := stepName :: r.steps, writes := writes0 ++ r.writes,
            genCalls := r.genCalls + 1, valCalls := r.valCalls }
      else if env.validatorSet then
        let vr := env.validatorReply attempt
        if !vr.valid then
          if attempt = maxAttempts then
            { exit := .invalid, steps := [stepName], writes := writes0,
              genCalls := 1, valCalls := 1 }
          else
            let r := genLoopAux cfg env maxAttempts fuel (attempt + 1)
              (some (vErrorText vr (cfg.stepBase ++ " validation failed")))
            { exit := r.exit, steps := stepName :: r.steps, writes := writes0 ++ r.writes,
              genCalls := r.genCalls + 1, valCalls := r.valCalls + 1 }
        else
          { exit := .ok yaml, steps := [stepName], writes := writes0,
            genCalls := 1, valCalls := 1 }
      else
        { exit := .ok yaml, steps := [stepName], writes := writes0,
          genCalls := 1, valCalls := 0 }

/-- Run one generation loop from attempt 1 with `maxAttempts` budget. -/
def genLoop (cfg : GenCfg) (env : GenEnv) (maxAttempts : Nat) : GenOut :=
  genLoopAux cfg env maxAttempts maxAttempts 1 none

/-- The CI loop's strings (orchestrator.py 972-1029). -/
def ciCfg : GenCfg :=
  { stepBase := "yaml_generator_ci", failStep := "yaml_generator_ci",
    shortFeedback := "CI workflow is missing or too short. Generate a complete CI workflow with all security scanning jobs.",
    incompleteFeedback := "CI workflow appears incomplete or truncated. Ensure all security scanning jobs are complete." }

/-- The CD loop's strings (orchestrator.py 1045-1107). -/
def cdCfg : GenCfg :=
  { stepBase := "yaml_generator_cd", failStep := "yaml_generator_cd",
    shortFeedback := "CD workflow is missing or too short. Generate a complete CD workflow with infrastructure, build, and deploy jobs.",
    incompleteFeedback := "CD workflow appears incomplete. Ensure all jobs are complete." }

/-! ## Workflow Controller — orchestrator `lambda_handler`
(orchestrator.py 636-1290)

The handler is embedded as a chain of stage functions mirroring the source's
sequential blocks and early returns.  `OrchEnv` carries the normalized event
(which agents and Lambda function names are configured), the remote results
each configured call site consumes, and the store-availability oracle.  The
observable outcome is the returned response, the appended workflow step
names, the attempted state-store writes (in order), and the GitHub
sub-operations performed directly by the orchestrator. -/

/-- The handler's inputs: event shape, configured collaborators, remote-call
results, and store availability. -/
structure OrchEnv where
  repoUrl : Option String
  repoIngestorSet : Bool
  analyzerSet : Bool
  validatorSet : Bool
  githubSet : Bool
  hasRepoScanner : Bool
  hasPipelineDesigner : Bool
  hasSecurity : Bool
  hasYamlGen : Bool
  hasPrManager : Bool
  repoScannerResult : InvokeResult
  designerResult : InvokeResult
  securityResult : InvokeResult
  prManagerResult : InvokeResult
  ciAgent : Nat → InvokeResult
  cdAgent : Nat → InvokeResult
  ciValidator : Nat → VReply
  cdValidator : Nat → VReply
  branchResp : GhResp
  fileResp : GhResp
  prResp : GhResp
  storeOk : Nat → Bool

/-- The value returned by the handler (the fields the claims inspect). -/
structure Resp where
  status : String
  message : String
deriving DecidableEq, Repr

/-- Observable outcome of one handler run. -/
structure OrchOutcome where
  response : Resp
  steps : List String
  writes : List StoreWrite
  githubCalls : List String
deriving DecidableEq, Repr

/-- The CI loop's oracles, projected from the handler environment. -/
def ciGenEnv (env : OrchEnv) : GenEnv :=
  { agentResult := env.ciAgent, validatorSet := env.validatorSet,
    validatorReply := env.ciValidator, storeOk := env.storeOk }

/-- The CD loop's oracles, projected from the handler environment. -/
def cdGenEnv (env : OrchEnv) : GenEnv :=
  { agentResult := env.cdAgent, validatorSet := env.validatorSet,
    validatorReply := env.cdValidator, storeOk := env.storeOk }

/-- The publish gate and GitHub operations step (orchestrator.py 1185-1249)
plus the completed-status epilogue (1251-1269). -/
def stagePublishGate (env : OrchEnv) (steps : List String)
    (writes : List StoreWrite) (yamlCi yamlCd : String) : OrchOutcome :=
  if yamlCi ≠ "" && yamlCd ≠ "" then
    let gh := execute_github_workflow env.githubSet env.branchResp env.fileResp
      env.prResp yamlCi yamlCd
    let steps1 := steps ++ ["github_operations"]
    let writes1 := noteWrite (env.storeOk 20) "in_progress" none writes
    if !gh.success then
      let writes2 := noteWrite (env.storeOk 21) "failed" (some "github_operations") writes1
      { response := ⟨"error", gh.error.getD "GitHub operations failed"⟩,
        steps := steps1, writes := writes2, githubCalls := gh.calls }
    else
      let writes2 := noteWrite (env.storeOk 22) "completed" none writes1
      { response := ⟨"success", ""⟩, steps := steps1, writes := writes2,
        githubCalls := gh.calls }
  else
    let writes1 := noteWrite (env.storeOk 23) "failed" (some "yaml_generator") writes
    { response := ⟨"error", "One or both workflow contents missing; cannot update GitHub"⟩,
      steps := steps, writes := writes1, githubCalls := [] }

/-- The PR-manager step (orchestrator.py 1125-1183): documentation only — the
agent's completion becomes the PR body (or a default), its captured
side-effect invocations are never consulted, and its status is not checked. -/
def stagePrManager (env : OrchEnv) (steps : List String)
    (writes : List StoreWrite) (yamlCi yamlCd : String) : OrchOutcome :=
  if env.hasPrManager then
    let _prBody := env.prManagerResult.completionOf
    let steps1 := steps ++ ["pr_manager"]
    let writes1 := noteWrite (env.storeOk 19) "in_progress" none writes
    stagePublishGate env steps1 writes1 yamlCi yamlCd
  else stagePublishGate env steps writes yamlCi yamlCd

/-- The YAML-generator step (orchestrator.py 870-1123): the CI loop, then the
CD loop, each with `max_attempts = 3`.  When `yaml_generator` is not
configured, the later references to `yaml_content_ci` raise a `NameError`
that the outer `except` (1271-1290) turns into a failed write (with no step
name) and an error return. -/
def stageYamlGen (env : OrchEnv) (steps : List String)
    (writes : List StoreWrite) : OrchOutcome :=
  if env.hasYamlGen then
    let ciOut := genLoop ciCfg (ciGenEnv env) 3
    let steps1 := steps ++ ciOut.steps
    let writes1 := writes ++ ciOut.writes
    match ciOut.exit with
    | .ok yamlCi =>
      if yamlCi = "" then
        { response := ⟨"error", "Failed to generate CI workflow"⟩,
          steps := steps1, writes := writes1, githubCalls := [] }
      else
        let cdOut := genLoop cdCfg (cdGenEnv env) 3
        let steps2 := steps1 ++ cdOut.steps
        let writes2 := writes1 ++ cdOut.writes
        match cdOut.exit with
        | .ok yamlCd =>
          if yamlCd = "" then
            { response := ⟨"error", "Failed to generate CD workflow"⟩,
              steps := steps2,
              writes := noteWrite (env.storeOk 18) "failed" (some "yaml_generator_cd") writes2,
              githubCalls := [] }
          else stagePrManager env steps2 writes2 yamlCi yamlCd
        | .agentFailed =>
          { response := ⟨"error", "CD workflow generation failed"⟩,
            steps := steps2, writes := writes2, githubCalls := [] }
        | .tooShort =>
          { response := ⟨"error", "CD workflow content is empty or too short"⟩,
            steps := steps2, writes := writes2, githubCalls := [] }
        | .incomplete =>
          { response := ⟨"error", "CD workflow is incomplete"⟩,
            steps := steps2, writes := writes2, githubCalls := [] }
        | .invalid =>
          { response := ⟨"error", "CD workflow validation failed"⟩,
            steps := steps2, writes := writes2, githubCalls := [] }
        | .exhausted =>
          { response := ⟨"error", "Failed to generate CD workflow"⟩,
            steps := steps2,
            writes := noteWrite (env.storeOk 18) "failed" (some "yaml_generator_cd") writes2,
            githubCalls := [] }
    | .agentFailed =>
      { response := ⟨"error", "CI workflow generation failed"⟩,
        steps := steps1, writes := writes1, githubCalls := [] }
    | .tooShort =>
      { response := ⟨"error", "CI workflow content is empty or too short"⟩,
        steps := steps1, writes := writes1, githubCalls := [] }
    | .incomplete =>
      { response := ⟨"error", "CI workflow is incomplete"⟩,
        steps := steps1, writes := writes1, githubCalls := [] }
    | .invalid =>
      { response := ⟨"error", "CI workflow validation failed"⟩,
        steps := steps1, writes := writes1, githubCalls := [] }
    | .exhausted =>
      { response := ⟨"error", "Failed to generate CI workflow"⟩,
        steps := steps1, writes := writes1, githubCalls := [] }
  else
    let writes1 := noteWrite (env.storeOk 17) "failed" none writes
    { response := ⟨"error", "NameError: yaml_content_ci is not defined"⟩,
      steps := steps, writes := writes1, githubCalls := [] }

/-- The security-compliance step (orchestrator.py 827-868): a non-success
result only logs a warning. -/
def stageSecurity (env : OrchEnv) (steps : List String)
    (writes : List StoreWrite) : OrchOutcome :=
  if env.hasSecurity then
    let steps1 := steps ++ ["security_compliance"]
    let writes1 := noteWrite (env.storeOk 6) "in_progress" none writes
    stageYamlGen env steps1 writes1
  else stageYamlGen env steps writes

/-- The pipeline-designer step (orchestrator.py 807-825): its status is never
checked. -/
def stageDesigner (env : OrchEnv) (steps : List String)
    (writes : List StoreWrite) : OrchOutcome :=
  if env.hasPipelineDesigner then
    let steps1 := steps ++ ["pipeline_designer"]
    let writes1 := noteWrite (env.storeOk 5) "in_progress" none writes
    stageSecurity env steps1 writes1
  else stageSecurity env steps writes

/-- The static-analyzer step (orchestrator.py 745-784): a non-success result
only logs a warning. -/
def stageAnalyzer (env : OrchEnv) (steps : List String)
    (writes : List StoreWrite) : OrchOutcome :=
  if env.analyzerSet then
    let steps1 := steps ++ ["static_analyzer"]
    let writes1 := noteWrite (env.storeOk 4) "in_progress" none writes
    stageDesigner env steps1 writes1
  else stageDesigner env steps writes

/-- The repo-scanner step (orchestrator.py 699-743): the first required step;
a non-success agent result persists `failed` with the step name and returns
immediately. -/
def stageScanner (env : OrchEnv) (steps : List String)
    (writes : List StoreWrite) : OrchOutcome :=
  if env.hasRepoScanner then
    let steps1 := steps ++ ["repo_scanner"]
    let writes1 := noteWrite (env.storeOk 2) "in_progress" none writes
    if env.repoScannerResult.resStatus ≠ "success" then
      let writes2 := noteWrite (env.storeOk 3) "failed" (some "repo_scanner") writes1
      { response := ⟨"error", "Repository scanning failed"⟩,
        steps := steps1, writes := writes2, githubCalls := [] }
    else stageAnalyzer env steps1 writes1
  else stageAnalyzer env steps writes

/-- Task-record creation and the optional repo-ingestor step
(orchestrator.py 660-696): ingestion failures only log a warning. -/
def stageIngest (env : OrchEnv) : OrchOutcome :=
  let _c := create_task_record (env.storeOk 0) "in_progress"
  let writes0 := [StoreWrite.mk "in_progress" none]
  if env.repoIngestorSet then
    stageScanner env ["repo_ingestor"] (noteWrite (env.storeOk 1) "in_progress" none writes0)
  else stageScanner env [] writes0

/-- The orchestrator `lambda_handler` (orchestrator.py 636-1290) on a
normalized event. -/
def run (env : OrchEnv) : OrchOutcome :=
  match env.repoUrl with
  | none =>
    { response := ⟨"error", "repo_url required"⟩, steps := [], writes := [],
      githubCalls := [] }
  | some _ => stageIngest env

/-! ## Concrete scenario inputs used in counterexamples and witnesses -/

/-- A small CI workflow accepted by the completeness heuristics. -/
def okCiYaml : String :=
  "name: ci\non: push\njobs:\n  test:\n    runs-on: ubuntu-latest\n    steps:\n      - run: echo test"

/-- A small CD workflow accepted by the completeness heuristics (no deploy
job, so the deploy-section checks are vacuous). -/
def okCdYaml : String :=
  "name: cd\non: push\njobs:\n  ship:\n    runs-on: ubuntu-latest\n    steps:\n      - run: echo ship"

/-- A generative completion whose fenced block extracts to `okCiYaml`. -/
def ciCompletionOk : String := "```yaml\n" ++ okCiYaml ++ "\n```"

/-- A generative completion whose fenced block extracts to `okCdYaml`. -/
def cdCompletionOk : String := "```yaml\n" ++ okCdYaml ++ "\n```"

/-- A CD workflow whose deploy section ends in a bare `exit 1` guard with no
actual deployment command: the completeness heuristics should reject it, but
accept it because `deploy` itself is on the keyword allow-list. -/
def guardYaml : String :=
  "name: cd\non: push\njobs:\n  deploy:\n    runs-on: ubuntu-latest\n    steps:\n      - name: guard only\n        run: |\n          echo start\n          if test -z \"$IMAGE\"; then\n            echo \"error: image missing\"\n            exit 1\n          fi\n          exit 1"

/-- Round-trip witness content: a deploy section with ten significant lines
and a genuine terminal-action keyword. -/
def deployContent : String :=
  "name: cd\non: push\njobs:\n  deploy:\n    runs-on: ubuntu-latest\n    steps:\n      - name: do deploy\n        run: |\n          echo start\n          echo step one\n          echo step two\n          aws ecs update-service --cluster app --service web --force-new-deployment\n          echo done"

/-- The publish step's required side-effecting operations (spec 4.6: create
branch, create file, create publish request), named as the GitHub action
paths. -/
def requiredOperations : List String := ["create-branch", "create-file", "create-pr"]

/-- Whether an observed invocation list covers every required operation. -/
def coversRequired (invs : List AgentInvocation) : Bool :=
  requiredOperations.all (fun op => invs.any (fun i => occursIn op.data i.api_path.data))

/-- Observed side-effect invocations covering all required operations. -/
def observedAll : List AgentInvocation :=
  [⟨"/create-branch", "POST", "github-actions"⟩,
   ⟨"/create-file", "PUT", "github-actions"⟩,
   ⟨"/create-pr", "POST", "github-actions"⟩]

/-- A fully-succeeding workflow run in which the publish-step agent reports
having performed every required operation itself. -/
def envAllObserved : OrchEnv :=
  { repoUrl := some "https://github.com/acme/widget",
    repoIngestorSet := false, analyzerSet := false, validatorSet := false,
    githubSet := true,
    hasRepoScanner := false, hasPipelineDesigner := false, hasSecurity := false,
    hasYamlGen := true, hasPrManager := true,
    repoScannerResult := .ok "" [], designerResult := .ok "" [],
    securityResult := .ok "" [],
    prManagerResult := .ok "Adds CI and CD workflows." observedAll,
    ciAgent := fun _ => .ok ciCompletionOk [],
    cdAgent := fun _ => .ok cdCompletionOk [],
    ciValidator := fun _ => ⟨true, [], []⟩, cdValidator := fun _ => ⟨true, [], []⟩,
    branchResp := ⟨"success", none⟩, fileResp := ⟨"success", none⟩,
    prResp := ⟨"success", none⟩,
    storeOk := fun _ => true }

/-- A run whose CI generation loop exhausts its budget on too-short content:
every attempt succeeds as a remote call but completes with `"hi"`. -/
def envShortCi : OrchEnv :=
  { repoUrl := some "https://github.com/acme/widget",
    repoIngestorSet := false, analyzerSet := false, validatorSet := false,
    githubSet := true,
    hasRepoScanner := false, hasPipelineDesigner := false, hasSecurity := false,
    hasYamlGen := true, hasPrManager := false,
    repoScannerResult := .ok "" [], designerResult := .ok "" [],
    securityResult := .ok "" [],
    prManagerResult := .ok "" [],
    ciAgent := fun _ => .ok "hi" [],
    cdAgent := fun _ => .ok cdCompletionOk [],
    ciValidator := fun _ => ⟨true, [], []⟩, cdValidator := fun _ => ⟨true, [], []⟩,
    branchResp := ⟨"success", none⟩, fileResp := ⟨"success", none⟩,
    prResp := ⟨"success", none⟩,
    storeOk := fun _ => true }

/-- A `create_file` request carrying both workflow files. -/
def bothWorkflowFiles : List FileSpec :=
  [⟨some ".github/workflows/ci.yml", some "name: ci"⟩,
   ⟨some ".github/workflows/cd.yml", some "name: cd"⟩]

/-! ## Theorems -/

/-- Helper: the validator handler's `normal`-level verdict equates validity
with an empty combined error list. -/
theorem validatorHandler_normal_valid (sv : SyntaxVerdict) (pw : List String) :
    (validatorHandler sv pw "normal").valid
      = (validatorHandler sv pw "normal").summaryErrors.isEmpty := by
  have h1 : ("normal" : String) ≠ "strict" := by decide
  simp [validatorHandler, h1]

/-- C4 counterexample: at validation level `lenient` the handler returns
`valid = true` even though the verdict carries a syntax error, falsifying
"if its error list is non-empty then valid = false" for that accepted level. -/
theorem validator_invariant_counterexample :
    (validatorHandler
      (validate_yaml_syntax_fn true (.parseError "mapping values are not allowed here")
        false false false false) [] "lenient").summaryErrors ≠ []
    ∧ (validatorHandler
      (validate_yaml_syntax_fn true (.parseError "mapping values are not allowed here")
        false false false false) [] "lenient").valid = true := by
  constructor
  · decide
  · decide

/-- C4 (amended): at validation level `normal` — the only level the
orchestrator passes — the returned verdict is valid exactly when its error
list is empty, so errors force `valid = false` and warnings never block;
under `strict` warnings also block, and under any other level the verdict is
always valid. -/
theorem validator_normal_level_verdict (extractedOk : Bool) (parse : ParsedYaml)
    (hasPassword hasSecretWord hasSecretsDot hasDollarBrace : Bool)
    (permWarnings : List String) :
    (validatorHandler
        (validate_yaml_syntax_fn extractedOk parse hasPassword hasSecretWord
          hasSecretsDot hasDollarBrace) permWarnings "normal").valid
      = (validatorHandler
        (validate_yaml_syntax_fn extractedOk parse hasPassword hasSecretWord
          hasSecretsDot hasDollarBrace) permWarnings "normal").summaryErrors.isEmpty :=
  validatorHandler_normal_valid _ _

/-- C3: when the branch and file sub-operations succeed and the
publish-request sub-call fails with a message containing "already exists",
the fallback outcome is success with exactly one warning. -/
theorem fallback_pr_already_exists_success_with_warning
    (branchResp fileResp prResp : GhResp) (ci cd : String)
    (hb : branchResp.status = "success")
    (hf : fileResp.status = "success")
    (hnz : ci ≠ "" ∨ cd ≠ "")
    (hp : prResp.status = "error")
    (hmsg : occursIn "already exists".data (lowerL (prResp.msgOr "").data) = true) :
    (execute_github_workflow true branchResp fileResp prResp ci cd).success = true
    ∧ (execute_github_workflow true branchResp fileResp prResp ci cd).warnings.length
        = 1 := by
  have hfiles :
      ((if ci ≠ "" then [".github/workflows/ci.yml"] else []) ++
       (if cd ≠ "" then [".github/workflows/cd.yml"] else [])).isEmpty = false := by
    rcases hnz with h | h
    · simp [h]
    · simp [h]
  have hboth : ¬(ci = "" ∧ cd = "") := by
    rcases hnz with h | h
    · exact fun hc => h hc.1
    · exact fun hc => h hc.2
  simp [execute_github_workflow, hb, hf, hp, hmsg, hfiles, hboth]

/-- C3 witness: the end-to-end scenario of the spec, with the publish
sub-call replying `status: error, message: "pull request already exists"`. -/
theorem fallback_pr_already_exists_witness :
    (execute_github_workflow true ⟨"success", none⟩ ⟨"success", none⟩
      ⟨"error", some "pull request already exists"⟩ okCiYaml okCdYaml).success = true
    ∧ (execute_github_workflow true ⟨"success", none⟩ ⟨"success", none⟩
      ⟨"error", some "pull request already exists"⟩ okCiYaml okCdYaml).warnings.length
        = 1 :=
  fallback_pr_already_exists_success_with_warning _ _ _ okCiYaml okCdYaml rfl rfl
    (Or.inl (by decide)) rfl (by decide)

/-- Helper: when every attempted write fails, every per-file result carries
status `error`. -/
theorem createFileResults_all_error (writeOk : String → Bool) :
    ∀ files : List FileSpec, (∀ f ∈ files, writeOk (f.path.getD "") = false) →
      (createFileResults writeOk files).all (fun r => r.status == "error") = true := by
  intro files
  induction files with
  | nil => intro _; rfl
  | cons f rest ih =>
    intro h
    have hf := h f (List.mem_cons_self f rest)
    have hrest := ih (fun x hx => h x (List.mem_cons_of_mem f hx))
    by_cases hmal : (strFalsy f.path || f.content.isNone) = true
    · simp [createFileResults, hmal, hrest]
    · simp [createFileResults, hmal, hf, hrest]

/-- C10: a `create_file` request with a non-empty files array returns overall
status `success` even when every individual file write failed; the failures
appear only in the per-file results, so the orchestrator's gate on the
overall status cannot detect them. -/
theorem create_file_overall_success_masks_failures
    (writeOk : String → Bool) (files : List FileSpec)
    (hne : files ≠ [])
    (hfail : ∀ f ∈ files, writeOk (f.path.getD "") = false) :
    (github_create_file writeOk files).status = "success"
    ∧ (github_create_file writeOk files).files.all
        (fun r => r.status == "error") = true := by
  have hempty : files.isEmpty = false := by
    cases files with
    | nil => exact absurd rfl hne
    | cons a l => rfl
  constructor
  · simp [github_create_file, hempty]
  · simp only [github_create_file, hempty, Bool.false_eq_true, if_false]
    exact createFileResults_all_error writeOk files hfail

/-- C10 witness: both workflow files, every write failing. -/
theorem create_file_masks_failures_witness :
    (github_create_file (fun _ => false) bothWorkflowFiles).status = "success"
    ∧ (github_create_file (fun _ => false) bothWorkflowFiles).files.all
        (fun r => r.status == "error") = true :=
  create_file_overall_success_masks_failures (fun _ => false) bothWorkflowFiles
    (by decide) (fun f _ => rfl)

set_option maxRecDepth 40000 in
/-- C8: the completeness check accepts `guardYaml`, whose deploy section's
last significant line is the guard clause `exit 1` and which contains no
genuine terminal-action keyword — because the allow-list contains the bare
word `deploy`, which the section header `deploy:` always satisfies, the
rejection branch of orchestrator.py 431-447 is unreachable. -/
theorem guard_tail_deploy_accepted :
    is_yaml_complete guardYaml = true
    ∧ (((pySplitlines (deploy_section guardYaml.data)).map pyStrip).filter
        (fun l => l ≠ [] && !startsWithStr ['#'] l)).getLast? = some "exit 1".data
    ∧ (deployKeywords.filter (fun kw => kw ≠ "deploy")).all
        (fun kw => !occursIn kw.data (lowerL (deploy_section guardYaml.data))) = true := by
  refine ⟨by decide, by decide, by decide⟩

set_option maxRecDepth 40000 in
/-- C2: a CI generation loop that exhausts its budget on too-short content
returns immediately with an error and executes no subsequent step, but the
last persisted status is still `in_progress` — no `failed` status (and hence
no offending step name) is ever written on this path. -/
theorem generation_exhaustion_leaves_task_in_progress :
    (run envShortCi).response.status = "error"
    ∧ (run envShortCi).steps = ["yaml_generator_ci_attempt_1",
        "yaml_generator_ci_attempt_2", "yaml_generator_ci_attempt_3"]
    ∧ (run envShortCi).writes.getLast? = some ⟨"in_progress", none⟩
    ∧ (run envShortCi).writes.all (fun w => w.status != "failed") = true := by
  refine ⟨by decide, by decide, by decide, by decide⟩

/-- Helper: in any state, a generation loop's validator calls never exceed
its generator calls, and its generator calls never exceed the remaining
fuel. -/
theorem genLoopAux_bounds (cfg : GenCfg) (env : GenEnv) (maxA : Nat) :
    ∀ fuel attempt verrs,
      (genLoopAux cfg env maxA fuel attempt verrs).valCalls ≤
        (genLoopAux cfg env maxA fuel attempt verrs).genCalls
      ∧ (genLoopAux cfg env maxA fuel attempt verrs).genCalls ≤ fuel := by
  intro fuel
  induction fuel with
  | zero => intro attempt verrs; exact ⟨Nat.le_refl 0, Nat.le_refl 0⟩
  | succ n ih =>
    intro attempt verrs
    simp only [genLoopAux]
    cases h : env.agentResult attempt with
    | err m t =>
      dsimp only
      by_cases hA : attempt = maxA
      · rw [if_pos hA]; exact ⟨by first | omega | (dsimp only; omega), by first | omega | (dsimp only; omega)⟩
      · rw [if_neg hA]
        obtain ⟨ih1, ih2⟩ := ih (attempt + 1) verrs
        exact ⟨by first | omega | (dsimp only; omega), by first | omega | (dsimp only; omega)⟩
    | ok c invs =>
      dsimp only
      by_cases hshort :
          (extract_yaml_content c = "" ||
           decide ((pyStrip (extract_yaml_content c).data).length < 50)) = true
      · rw [if_pos hshort]
        by_cases hA : attempt = maxA
        · rw [if_pos hA]; exact ⟨by first | omega | (dsimp only; omega), by first | omega | (dsimp only; omega)⟩
        · rw [if_neg hA]
          obtain ⟨ih1, ih2⟩ := ih (attempt + 1) (some cfg.shortFeedback)
          exact ⟨by first | omega | (dsimp only; omega), by first | omega | (dsimp only; omega)⟩
      · rw [if_neg hshort]
        by_cases hinc : (!is_yaml_complete (extract_yaml_content c)) = true
        · rw [if_pos hinc]
          by_cases hA : attempt = maxA
          · rw [if_pos hA]; exact ⟨by first | omega | (dsimp only; omega), by first | omega | (dsimp only; omega)⟩
          · rw [if_neg hA]
            obtain ⟨ih1, ih2⟩ := ih (attempt + 1) (some cfg.incompleteFeedback)
            exact ⟨by first | omega | (dsimp only; omega), by first | omega | (dsimp only; omega)⟩
        · rw [if_neg hinc]
          by_cases hv : env.validatorSet = true
          · rw [if_pos hv]
            by_cases hvalid : (!(env.validatorReply attempt).valid) = true
            · rw [if_pos hvalid]
              by_cases hA : attempt = maxA
              · rw [if_pos hA]; exact ⟨by first | omega | (dsimp only; omega), by first | omega | (dsimp only; omega)⟩
              · rw [if_neg hA]
                obtain ⟨ih1, ih2⟩ := ih (attempt + 1)
                  (some (vErrorText (env.validatorReply attempt)
                    (cfg.stepBase ++ " validation failed")))
                exact ⟨by first | omega | (dsimp only; omega), by first | omega | (dsimp only; omega)⟩
            · rw [if_neg hvalid]; exact ⟨by first | omega | (dsimp only; omega), by first | omega | (dsimp only; omega)⟩
          · rw [if_neg hv]; exact ⟨by first | omega | (dsimp only; omega), by first | omega | (dsimp only; omega)⟩

/-- C5: one generation loop (CI or CD, orchestrator.py 972-1029 and
1045-1107) invokes the validator at most as often as the generator, and the
generator at most `maxAttempts` times (the handler passes 3). -/
theorem generation_loop_call_bounds (cfg : GenCfg) (env : GenEnv) (maxAttempts : Nat) :
    (genLoop cfg env maxAttempts).valCalls ≤ (genLoop cfg env maxAttempts).genCalls
    ∧ (genLoop cfg env maxAttempts).genCalls ≤ maxAttempts :=
  genLoopAux_bounds cfg env maxAttempts maxAttempts 1 none

/-- Helper: an `invoke_agent` run makes at most `fuel` remote calls. -/
theorem invoke_agent_aux_len (outcomes : Nat → AgentCallOutcome) (mr : Nat) :
    ∀ fuel k sid, (invoke_agent_aux outcomes mr fuel k sid).2.length ≤ fuel := by
  intro fuel
  induction fuel with
  | zero => intro k sid; exact Nat.le_refl 0
  | succ n ih =>
    intro k sid
    simp only [invoke_agent_aux]
    cases h : outcomes k with
    | success c invs => simp
    | exn msg ty =>
      by_cases hr : (isRetryable msg ty && decide (k < mr)) = true
      · simp only [hr, if_true, List.length_cons]
        exact Nat.succ_le_succ (ih (k + 1) _)
      · simp [hr]

/-- Helper: from attempt `k+1` with the correctly-suffixed session id, the
call trace is exactly the expected suffixed-session, power-of-two-delay
sequence. -/
theorem invoke_agent_aux_trace (outcomes : Nat → AgentCallOutcome) (mr : Nat)
    (base : String) :
    ∀ fuel k n, (invoke_agent_aux outcomes mr fuel (k + 1) (sessionAt base k)).2.length = n →
      (invoke_agent_aux outcomes mr fuel (k + 1) (sessionAt base k)).2
        = (List.range' (k + 1) n).map (fun i => ⟨sessionAt base i, delayAt i⟩) := by
  intro fuel
  induction fuel with
  | zero =>
    intro k n hn
    simp only [invoke_agent_aux, List.length_nil] at hn
    subst hn
    rfl
  | succ m ih =>
    intro k n hn
    simp only [invoke_agent_aux, gt_iff_lt, Nat.zero_lt_succ, if_true] at hn ⊢
    have hsid : sessionAt base k ++ "-retry-" ++ toString (k + 1)
        = sessionAt base (k + 1) := rfl
    have hd : delayAt (k + 1) = 2 ^ (k + 1) := by simp [delayAt]
    rw [hsid] at hn ⊢
    cases h : outcomes (k + 1) with
    | success c invs =>
      simp only [h, List.length_cons, List.length_nil] at hn
      subst hn
      simp only [Nat.zero_add, List.range'_one, List.map_cons, List.map_nil]
      rw [hd]
    | exn msg ty =>
      by_cases hr : (isRetryable msg ty && decide (k + 1 < mr)) = true
      · simp only [h] at hn ⊢
        rw [if_pos hr] at hn ⊢
        simp only [List.length_cons] at hn
        cases n with
        | zero => exact absurd hn (by omega)
        | succ p =>
          have hp : (invoke_agent_aux outcomes mr m (k + 1 + 1)
              (sessionAt base (k + 1))).2.length = p := by omega
          rw [List.range'_succ, List.map_cons]
          dsimp only
          rw [hd]
          exact congrArg (List.cons _) (ih (k + 1) p hp)
      · simp only [h] at hn ⊢
        rw [if_neg hr] at hn ⊢
        simp only [List.length_cons, List.length_nil] at hn
        subst hn
        simp only [Nat.zero_add, List.range'_one, List.map_cons, List.map_nil]
        rw [hd]

/-- Helper: the backoff delay before attempt `k` is non-decreasing in `k`. -/
theorem delayAt_mono_succ (k : Nat) : delayAt k ≤ delayAt (k + 1) := by
  cases k with
  | zero => simp [delayAt]
  | succ m =>
    simp only [delayAt, Nat.succ_ne_zero, if_false]
    exact Nat.pow_le_pow_right (by norm_num) (Nat.le_succ _)

/-- Helper: the delays along any expected trace form a non-decreasing chain. -/
theorem chain_delay (n : Nat) :
    List.Chain' (· ≤ ·) ((List.range n).map delayAt) := by
  have key : ∀ m s, List.Chain' (· ≤ ·) ((List.range' s m).map delayAt) := by
    intro m
    induction m with
    | zero => intro s; simp
    | succ p ihp =>
      intro s
      rw [List.range'_succ]
      cases p with
      | zero => simp
      | succ q =>
        rw [List.range'_succ]
        simp only [List.map_cons]
        exact List.Chain'.cons (delayAt_mono_succ s) (by
          have := ihp (s + 1)
          rwa [List.range'_succ] at this)
  rw [List.range_eq_range']
  exact key n 0

/-- C6: `invoke_agent` (orchestrator.py 125-257) makes at most
`max_retries + 1` remote calls in total; its call trace is exactly the
expected one, in which every retried call session id appends one
`-retry-<attempt>` suffix to the previous id and the delay before attempt `k`
is `2^k`; and the delays are monotonically non-decreasing. -/
theorem invoke_agent_retry_discipline (outcomes : Nat → AgentCallOutcome)
    (sessionId : String) (maxRetries : Nat) :
    (invoke_agent outcomes sessionId maxRetries).2
      = expectedTrace sessionId (invoke_agent outcomes sessionId maxRetries).2.length
    ∧ (invoke_agent outcomes sessionId maxRetries).2.length ≤ maxRetries + 1
    ∧ List.Chain' (· ≤ ·)
        ((invoke_agent outcomes sessionId maxRetries).2.map AttemptRec.delayBefore) := by
  have hexp : (invoke_agent outcomes sessionId maxRetries).2
      = expectedTrace sessionId (invoke_agent outcomes sessionId maxRetries).2.length := by
    simp only [invoke_agent, invoke_agent_aux, gt_iff_lt, Nat.lt_irrefl, if_false]
    cases h : outcomes 0 with
    | success c invs => rfl
    | exn msg ty =>
      by_cases hr : (isRetryable msg ty && decide (0 < maxRetries)) = true
      · simp only [hr, if_true, List.length_cons]
        have htail := invoke_agent_aux_trace outcomes maxRetries sessionId maxRetries 0
          (invoke_agent_aux outcomes maxRetries maxRetries (0 + 1)
            (sessionAt sessionId 0)).2.length rfl
        simp only [sessionAt] at htail
        simp only [expectedTrace, List.range_eq_range', List.range'_succ, List.map_cons]
        rw [htail]
        simp only [List.length_map, List.length_range']
        rfl
      · simp only [hr, if_false]
        rfl
  refine ⟨hexp, ?_, ?_⟩
  · exact invoke_agent_aux_len outcomes maxRetries (maxRetries + 1) 0 sessionId
  · rw [hexp]
    simp only [expectedTrace, List.map_map, Function.comp_def]
    exact chain_delay _

/-- Helper: a generation loop's observable output does not depend on the
store-availability oracle. -/
theorem genLoopAux_storeOk_indep (cfg : GenCfg) (ag : Nat → InvokeResult)
    (vs : Bool) (vr : Nat → VReply) (f g : Nat → Bool) (maxA : Nat) :
    ∀ fuel attempt verrs,
      genLoopAux cfg ⟨ag, vs, vr, f⟩ maxA fuel attempt verrs
        = genLoopAux cfg ⟨ag, vs, vr, g⟩ maxA fuel attempt verrs := by
  intro fuel
  induction fuel with
  | zero => intro attempt verrs; rfl
  | succ n ih =>
    intro attempt verrs
    simp only [genLoopAux, noteWrite, ih]

/-- C9: the state-store wrappers never let a persistence failure escape
(both return normally whether or not DynamoDB is available), and the
handler's observable outcome — response, step list, attempted writes, GitHub
operations — is identical under any store-availability oracle; in particular
a state-store failure alone never yields a failed outcome. -/
theorem state_store_best_effort (env : OrchEnv) (f g : Nat → Bool)
    (avail : Bool) (st : String) (stp : Option String) :
    create_task_record avail st = .ok ()
    ∧ update_task_status avail st stp = .ok ()
    ∧ run { env with storeOk := f } = run { env with storeOk := g } := by
  refine ⟨?_, ?_, ?_⟩
  · cases avail <;> rfl
  · cases avail <;> rfl
  · obtain ⟨ru, ri, an, va, gh, s1, s2, s3, s4, s5, r1, r2, r3, r4, ca, cda, cv,
      cdv, br, fr, pr, so⟩ := env
    cases ru with
    | none => rfl
    | some u =>
      simp only [run, stageIngest, stageScanner, stageAnalyzer, stageDesigner,
        stageSecurity, stageYamlGen, stagePrManager, stagePublishGate, genLoop,
        ciGenEnv, cdGenEnv, noteWrite]
      rw [genLoopAux_storeOk_indep ciCfg ca va cv f g 3 3 1 none,
        genLoopAux_storeOk_indep cdCfg cda va cdv f g 3 3 1 none]

/-- Helper: a successful fallback outcome always performed all three GitHub
sub-operations in order. -/
theorem gh_success_calls (b : Bool) (br fi pr : GhResp) (ci cd : String) :
    (execute_github_workflow b br fi pr ci cd).success = true →
    (execute_github_workflow b br fi pr ci cd).calls
      = ["create_branch", "create_file", "create_pr"] := by
  unfold execute_github_workflow
  dsimp only
  repeat' split
  all_goals simp_all

/-- Helper: a publish stage that reports success invoked all three GitHub
sub-operations. -/
theorem stagePublishGate_success (env : OrchEnv) (steps : List String)
    (writes : List StoreWrite) (ci cd : String) :
    (stagePublishGate env steps writes ci cd).response.status = "success" →
    (stagePublishGate env steps writes ci cd).githubCalls
      = ["create_branch", "create_file", "create_pr"] := by
  unfold stagePublishGate
  dsimp only
  split
  · split
    next hgs =>
      intro h
      exact absurd h (by simp)
    next hgs =>
      intro _
      exact gh_success_calls _ _ _ _ _ _ (by
        simpa using hgs)
  · intro h
    exact absurd h (by simp)

/-- Helper: a PR-manager stage that reports success invoked all three GitHub
sub-operations. -/
theorem stagePrManager_success (env : OrchEnv) (steps : List String)
    (writes : List StoreWrite) (ci cd : String) :
    (stagePrManager env steps writes ci cd).response.status = "success" →
    (stagePrManager env steps writes ci cd).githubCalls
      = ["create_branch", "create_file", "create_pr"] := by
  unfold stagePrManager
  split
  · exact stagePublishGate_success _ _ _ _ _
  · exact stagePublishGate_success _ _ _ _ _

/-- Helper: a YAML-generation stage that reports success invoked all three
GitHub sub-operations. -/
theorem stageYamlGen_success (env : OrchEnv) (steps : List String)
    (writes : List StoreWrite) :
    (stageYamlGen env steps writes).response.status = "success" →
    (stageYamlGen env steps writes).githubCalls
      = ["create_branch", "create_file", "create_pr"] := by
  unfold stageYamlGen
  dsimp only
  repeat' split
  all_goals first
    | exact stagePrManager_success _ _ _ _ _
    | (intro h; exact absurd h (by simp))

/-- Helper: a run that reports success invoked all three GitHub
sub-operations. -/
theorem run_success_calls (env : OrchEnv) :
    (run env).response.status = "success" →
    (run env).githubCalls = ["create_branch", "create_file", "create_pr"] := by
  unfold run stageIngest stageScanner stageAnalyzer stageDesigner stageSecurity
  dsimp only
  repeat' split
  all_goals first
    | exact stageYamlGen_success _ _ _
    | (intro h; exact absurd h (by simp))

/-- C1 counterexample: a run in which the publish-step agent's observed
side-effect invocations cover every required operation, yet the orchestrator
still performs all three GitHub operations directly itself. -/
theorem reconciler_counterexample :
    coversRequired observedAll = true
    ∧ envAllObserved.prManagerResult = .ok "Adds CI and CD workflows." observedAll
    ∧ (run envAllObserved).response.status = "success"
    ∧ (run envAllObserved).githubCalls
        = ["create_branch", "create_file", "create_pr"] := by
  refine ⟨by decide, rfl, by decide, by decide⟩

/-- C1 (amended): the orchestrator never consults the observed side-effect
invocations — its outcome is identical for any invocation list the
publish-step agent reports — and every successful run performs the
create-branch, create-file, create-pr operations directly itself. -/
theorem orchestrator_ignores_observed_invocations (env : OrchEnv) (c : String)
    (invs invs' : List AgentInvocation) :
    run { env with prManagerResult := .ok c invs }
      = run { env with prManagerResult := .ok c invs' }
    ∧ ((run env).response.status = "success" →
       (run env).githubCalls = ["create_branch", "create_file", "create_pr"]) := by
  refine ⟨?_, run_success_calls env⟩
  obtain ⟨ru, ri, an, va, gh, s1, s2, s3, s4, s5, r1, r2, r3, r4, ca, cda, cv,
    cdv, br, fr, pr, so⟩ := env
  cases ru with
  | none => rfl
  | some u =>
    simp only [run, stageIngest, stageScanner, stageAnalyzer, stageDesigner,
      stageSecurity, stageYamlGen, stagePrManager, stagePublishGate, genLoop,
      ciGenEnv, cdGenEnv, noteWrite, InvokeResult.completionOf]

/-- C1 witness for the amended theorem: at the all-observed scenario the
successful run's direct GitHub operations are exactly the three required
ones. -/
theorem orchestrator_ignores_observed_invocations_witness :
    (run envAllObserved).githubCalls = ["create_branch", "create_file", "create_pr"] :=
  (orchestrator_ignores_observed_invocations envAllObserved "" [] []).2 (by decide)

/-- Helper: a needle absent from a cons list is neither a prefix of it nor
present in its tail. -/
theorem occursIn_cons_false {n : List Char} {c : Char} {rest : List Char}
    (h : occursIn n (c :: rest) = false) :
    startsWithStr n (c :: rest) = false ∧ occursIn n rest = false := by
  rw [occursIn] at h
  exact ⟨by cases hs : startsWithStr n (c :: rest) <;> simp_all,
         by cases ho : occursIn n rest <;> simp_all⟩

/-- Helper: if `l` contains no fence, appending a newline-fence does not
create a fence prefix at its head. -/
theorem startsWith_fence3_append_false {l : List Char}
    (h : occursIn fence3 l = false) :
    startsWithStr fence3 (l ++ nlFence) = false := by
  match l with
  | [] => rfl
  | [a] =>
    simp [fence3, nlFence, startsWithStr]
  | [a, b] =>
    simp [fence3, nlFence, startsWithStr]
  | a :: b :: c :: t =>
    obtain ⟨h1, _⟩ := occursIn_cons_false h
    simp only [fence3, startsWithStr, List.cons_append] at h1 ⊢
    exact h1

/-- Helper: when `l` contains no fence, the shortest-content scan of
`l ++ "\n```"` returns exactly `l`. -/
theorem takeUntilCloseFence_append {l : List Char}
    (h : occursIn fence3 l = false) :
    takeUntilCloseFence (l ++ nlFence) = l := by
  induction l with
  | nil => decide
  | cons c rest ih =>
    obtain ⟨h1, h2⟩ := occursIn_cons_false h
    have hns : startsWithStr nlFence (c :: (rest ++ nlFence)) = false := by
      by_cases hc : c = '\n'
      · subst hc
        have h3 := startsWith_fence3_append_false h2
        simp only [nlFence] at h3 ⊢
        simp [startsWithStr, h3]
      · simp [nlFence, startsWithStr, Ne.symm hc]
    have hnl : ¬((c = '\n' && decide (rest ++ nlFence = [])) = true) := by
      simp [nlFence]
    rw [List.cons_append, takeUntilCloseFence]
    rw [if_neg (by simp [hns]), if_neg hnl]
    exact congrArg (List.cons c) (ih h2)

/-- Helper (Artifact Extractor round trip): for content that starts with a
non-whitespace character and contains no fence, extraction from
`"```yaml\n" ++ content ++ "\n```"` returns exactly the stripped content. -/
theorem extract_roundtrip (content : String)
    (hnofence : occursIn fence3 content.data = false)
    (hne : content.data ≠ [])
    (hsolid : content.data.takeWhile isPySpace = []) :
    extract_yaml_content ("```yaml\n" ++ content ++ "\n```") = pyStripS content := by
  obtain ⟨c0, cs, hcd⟩ : ∃ c0 cs, content.data = c0 :: cs := by
    cases hc : content.data with
    | nil => exact absurd hc hne
    | cons a l => exact ⟨a, l, rfl⟩
  have hc0 : isPySpace c0 = false := by
    by_cases hp : isPySpace c0 = true
    · rw [hcd, List.takeWhile_cons, if_pos hp] at hsolid
      exact absurd hsolid (by simp)
    · simpa using hp
  have hdata : ("```yaml\n" ++ content ++ "\n```").data
      = '`' :: '`' :: '`' :: 'y' :: 'a' :: 'm' :: 'l' :: '\n' ::
        (content.data ++ nlFence) := by
    rw [String.data_append, String.data_append]
    rfl
  have htext : ("```yaml\n" ++ content ++ "\n```") ≠ "" := by
    intro hh
    have hd0 : ("```yaml\n" ++ content ++ "\n```").data = [] := by rw [hh]
    rw [hdata] at hd0
    exact absurd hd0 (by simp)
  have hnlsp : isPySpace '\n' = true := rfl
  have hws : (('\n' :: (content.data ++ nlFence)).takeWhile isPySpace) = ['\n'] := by
    rw [hcd, List.cons_append]
    simp [List.takeWhile_cons, hnlsp, hc0]
  have hdrop : (('\n' :: (content.data ++ nlFence)).dropWhile isPySpace)
      = content.data ++ nlFence := by
    rw [hcd, List.cons_append]
    simp [List.dropWhile_cons, hnlsp, hc0]
  have hm : matchFenceAt ('`' :: '`' :: '`' :: 'y' :: 'a' :: 'm' :: 'l' :: '\n' ::
      (content.data ++ nlFence)) = some content.data := by
    unfold matchFenceAt
    rw [if_pos (by rfl)]
    have hdy : dropYamlTag (('`' :: '`' :: '`' :: 'y' :: 'a' :: 'm' :: 'l' :: '\n' ::
        (content.data ++ nlFence)).drop 3) = '\n' :: (content.data ++ nlFence) := rfl
    rw [hdy]
    unfold consumeWsNl
    rw [hws, hdrop]
    rw [if_pos (by decide)]
    have hafter : afterLastNl ['\n'] = [] := rfl
    rw [hafter, List.nil_append]
    exact congrArg some (takeUntilCloseFence_append hnofence)
  unfold extract_yaml_content
  rw [if_neg htext, hdata]
  rw [searchFence, hm]
  rfl

/-- Helper: stripping a nonempty list that starts with a non-whitespace
character leaves it nonempty. -/
theorem pyStrip_ne_nil {l : List Char} (hne : l ≠ [])
    (hsolid : l.takeWhile isPySpace = []) : pyStrip l ≠ [] := by
  obtain ⟨c0, cs, rfl⟩ : ∃ c0 cs, l = c0 :: cs := by
    cases l with
    | nil => exact absurd rfl hne
    | cons a l' => exact ⟨a, l', rfl⟩
  have hc0 : isPySpace c0 = false := by
    by_cases hp : isPySpace c0 = true
    · rw [List.takeWhile_cons, if_pos hp] at hsolid
      exact absurd hsolid (by simp)
    · simpa using hp
  unfold pyStrip
  rw [List.dropWhile_cons, if_neg (by simp [hc0])]
  intro hcontra
  have h2 : ((c0 :: cs).reverse.dropWhile isPySpace) = [] := by
    have h3 := congrArg List.reverse hcontra
    rwa [List.reverse_reverse, List.reverse_nil] at h3
  rw [List.dropWhile_eq_nil_iff] at h2
  have h4 := h2 c0 (by simp)
  rw [hc0] at h4
  exact absurd h4 (by simp)

/-- C7: extraction round trip with completeness.  For content with no fence
inside it, starting with a non-whitespace character (so the `\s*\n` of the
pattern does not eat into it), wrapping in the fence delimiters and
extracting returns the content exactly modulo surrounding whitespace; and
when the stripped content shows no truncation signs, meets the minimum-length
check, and (if it has a terminal deploy section) carries an allow-listed
terminal-action keyword there, the completeness check accepts it. -/
theorem extraction_roundtrip_complete (content : String)
    (hnofence : occursIn fence3 content.data = false)
    (hne : content.data ≠ [])
    (hsolid : content.data.takeWhile isPySpace = [])
    (hlast : lastLineLooksComplete (pyStripS content).data = true)
    (hbrace : bracesOk (pyStripS content).data = true)
    (hkw : occursIn "deploy:".data (lowerL (pyStripS content).data) = true →
      deployKeywords.any
        (fun kw => occursIn kw.data
          (lowerL (deploy_section (pyStripS content).data))) = true)
    (hlen : minLengthOk (pyStripS content).data = true) :
    extract_yaml_content ("```yaml\n" ++ content ++ "\n```") = pyStripS content
    ∧ is_yaml_complete (pyStripS content) = true := by
  refine ⟨extract_roundtrip content hnofence hne hsolid, ?_⟩
  have hne' : (pyStripS content).data ≠ [] := pyStrip_ne_nil hne hsolid
  have hisempty : (pyStripS content).data.isEmpty = false := by
    cases h : (pyStripS content).data with
    | nil => exact absurd h hne'
    | cons a l' => rfl
  have hdsec : deploySectionOk (pyStripS content).data = true := by
    unfold deploySectionOk
    by_cases hd : occursIn "deploy:".data (lowerL (pyStripS content).data) = true
    · rw [if_pos hd]
      simp [hkw hd]
    · rw [if_neg hd]
  unfold is_yaml_complete
  simp [hisempty, hlast, hbrace, hdsec, hlen]

set_option maxRecDepth 80000 in
/-- C7 witness: a concrete CD workflow with a keyword-carrying deploy
section of ten significant lines round-trips through extraction and passes
the completeness check. -/
theorem extraction_roundtrip_complete_witness :
    extract_yaml_content ("```yaml\n" ++ deployContent ++ "\n```")
      = pyStripS deployContent
    ∧ is_yaml_complete (pyStripS deployContent) = true :=
  extraction_roundtrip_complete deployContent (by decide) (by decide) (by decide)
    (by decide) (by decide) (by decide) (by decide)

/-- C4 witness: a parse missing only the workflow name (a warning, no
errors) at level `normal`. -/
theorem validator_normal_level_verdict_witness :
    (validatorHandler
        (validate_yaml_syntax_fn true (.doc false true (some [("build", ⟨true, some [⟨false, true⟩]⟩)]))
          false false false false) [] "normal").valid
      = (validatorHandler
        (validate_yaml_syntax_fn true (.doc false true (some [("build", ⟨true, some [⟨false, true⟩]⟩)]))
          false false false false) [] "normal").summaryErrors.isEmpty :=
  validator_normal_level_verdict true _ false false false false []

/-- C5 witness: the CI loop at a concrete environment. -/
theorem generation_loop_call_bounds_witness :
    (genLoop ciCfg ⟨fun _ => .ok "hi" [], true, fun _ => ⟨true, [], []⟩,
      fun _ => true⟩ 3).valCalls
      ≤ (genLoop ciCfg ⟨fun _ => .ok "hi" [], true, fun _ => ⟨true, [], []⟩,
      fun _ => true⟩ 3).genCalls
    ∧ (genLoop ciCfg ⟨fun _ => .ok "hi" [], true, fun _ => ⟨true, [], []⟩,
      fun _ => true⟩ 3).genCalls ≤ 3 :=
  generation_loop_call_bounds ciCfg _ 3

/-- C6 witness: a run of three throttled attempts. -/
theorem invoke_agent_retry_discipline_witness :
    (invoke_agent (fun _ => .exn "rate limited" "ThrottlingException") "sess" 2).2
      = expectedTrace "sess"
          (invoke_agent (fun _ => .exn "rate limited" "ThrottlingException") "sess" 2).2.length
    ∧ (invoke_agent (fun _ => .exn "rate limited" "ThrottlingException") "sess" 2).2.length
        ≤ 2 + 1
    ∧ List.Chain' (· ≤ ·)
        ((invoke_agent (fun _ => .exn "rate limited" "ThrottlingException") "sess" 2).2.map
          AttemptRec.delayBefore) :=
  invoke_agent_retry_discipline (fun _ => .exn "rate limited" "ThrottlingException")
    "sess" 2

/-- C9 witness: a run under full store unavailability versus full
availability. -/
theorem state_store_best_effort_witness :
    create_task_record false "in_progress" = .ok ()
    ∧ update_task_status false "in_progress" none = .ok ()
    ∧ run { envAllObserved with storeOk := fun _ => false }
        = run { envAllObserved with storeOk := fun _ => true } :=
  state_store_best_effort envAllObserved (fun _ => false) (fun _ => true) false
    "in_progress" none

end AgenticCicd
